import Mathlib

/-!
Shallow embedding of the Drishyata Redis Sentinel observability engine
(`src/main.py`).  Network calls are modelled by oracle functions supplied in a
`World`; database writes are modelled by explicit row lists, with an oracle
saying which row insertions raise.  All definitions follow the Python source;
the theorems at the end settle the specification claims.
-/

namespace Drishyata

/-- A host/port pair, as configured in `SENTINELS` and used for node probes. -/
structure Endpoint where
  host : String
  port : Nat
deriving DecidableEq, Repr

/-- Python values appearing in the loosely typed node-info dictionaries:
either an integer (for example a `dbsize` result) or a string (for example
the literal sentinel value `n/a`). -/
inductive Val where
  | int (n : Int)
  | str (s : String)
deriving DecidableEq, Repr

/-- Outcome of `redis.StrictRedis(...)` plus `r.ping()` for one Sentinel
candidate inside `get_sentinel_connection`: the attempt may raise, or the
ping may return false, or the ping may return true. -/
inductive ConnOutcome where
  | raised
  | pingFalse
  | pingTrue
deriving DecidableEq, Repr

/-- Outcome of the node-probe query sequence `r.info(); r.dbsize(); r.ping()`
in `live_monitor_view`.  `failure` stands for any connect/query exception.
On success, `connected_clients` and `used_memory_human` may be missing from
the info dictionary (Python falls back to the string `n/a`). -/
inductive NodeProbeResult where
  | failure
  | success (dbsize : Int) (connected_clients : Option Int)
      (used_memory_human : Option String) (ping : Bool)
deriving DecidableEq, Repr

/-- Outcome of the Sentinel-probe query sequence `rs.info('sentinel');
rs.ping()`.  `failure` stands for any connect/query exception; on success the
three Sentinel statistics may be missing (Python `.get(key, 0)`). -/
inductive SentinelProbeResult where
  | failure
  | success (sentinel_masters : Option Int) (sentinel_tilt : Option Int)
      (sentinel_running_scripts : Option Int) (ping : Bool)
deriving DecidableEq, Repr

/-- One entry of the `sentinel_masters()` mapping: the Sentinel-reported
record for a master, of which the code reads `.get('ip')` and `.get('port')`
(either may be missing). -/
structure MasterData where
  ip : Option String
  port : Option Nat
deriving DecidableEq, Repr

/-- Python truthiness of an optional string (`None` and `''` are falsy). -/
def truthyStr : Option String → Bool
  | none => false
  | some s => s ≠ ""

/-- Python truthiness of an optional integer (`None` and `0` are falsy). -/
def truthyNat : Option Nat → Bool
  | none => false
  | some n => n ≠ 0

/-- The per-node info dictionary built inside `live_monitor_view`
(`node_info = {'Role': ..., 'Host': ..., 'Port': ..., 'Health': ...,
'Keys': ..., 'Clients': ..., 'Memory': ...}`).  Host and port come from
Sentinel-reported records and may be `None` for replicas. -/
structure NodeInfo where
  role : String
  host : Option String
  port : Option Nat
  health : String
  keys : Val
  clients : Val
  memory : String
deriving DecidableEq, Repr

/-- A row of the `health_snapshots` table as bound by `save_health_data`
(`id` autoincrement omitted).  `keys` and `clients` are nullable (`None`
when the in-memory value was the string `n/a`); `memory` is nullable in the
schema but `save_health_data` always binds `info['Memory']`. -/
structure HealthRow where
  timestamp : String
  cluster_name : String
  role : String
  host : Option String
  port : Option Nat
  health : String
  keys : Option Val
  clients : Option Val
  memory : Option String
  master_host : String
  master_port : Nat
deriving DecidableEq, Repr

/-- The per-Sentinel info dictionary built in the Sentinel phase of
`live_monitor_view`. -/
structure SentinelInfo where
  host : String
  port : Nat
  status : String
  masters_monitored : Int
  is_tilt : Int
  running_scripts : Int
deriving DecidableEq, Repr

/-- A row of the `sentinel_snapshots` table as bound by `save_sentinel_data`
(`id` autoincrement omitted). -/
structure SentinelRow where
  timestamp : String
  host : String
  port : Nat
  masters_monitored : Int
  is_tilt : Int
  running_scripts : Int
  total_clusters_monitored : Int
deriving DecidableEq, Repr

/-- Result of one batch-save call: the rows whose `INSERT` was attempted
(executed or raising), and the rows actually persisted by the final
`conn.commit()` (closing an SQLite connection without commit rolls back). -/
structure SaveOutcome (ρ : Type) where
  attempted : List ρ
  committed : List ρ
deriving DecidableEq, Repr

/-- All external behaviour one polling cycle can observe: connection
outcomes per Sentinel candidate, the `sentinel_masters()` result, the
`sentinel_slaves(name)` result per master, the node and Sentinel probe
oracles, which row insertions raise, and the cycle's clock reading. -/
structure World where
  conn : Endpoint → ConnOutcome
  masters : Except Unit (List (String × MasterData))
  slaves : String → Except Unit (List (Option String × Option Nat))
  nodeProbe : Option String → Option Nat → NodeProbeResult
  sentinelProbe : Endpoint → SentinelProbeResult
  healthInsertFails : HealthRow → Bool
  sentinelInsertFails : SentinelRow → Bool
  now : String

/-- `get_sentinel_connection`: iterate `SENTINELS` in order; for each
candidate connect and ping inside a `try`; return the first connection whose
ping is truthy; a raise or a falsy ping moves on to the next candidate;
return `None` when every candidate fails. -/
def get_sentinel_connection (sentinels : List Endpoint)
    (conn : Endpoint → ConnOutcome) : Option Endpoint :=
  match sentinels with
  | [] => none
  | e :: rest =>
      if conn e = ConnOutcome.pingTrue then some e
      else get_sentinel_connection rest conn

/-- The node-probe body of `live_monitor_view`: on success build the info
dictionary from `dbsize`, `connected_clients` (default `n/a`),
`used_memory_human` (default `n/a`) and the ping; on any exception build the
`Down/Error` dictionary with `n/a` in all three data fields. -/
def probeNode (probe : Option String → Option Nat → NodeProbeResult)
    (host : Option String) (port : Option Nat) (role : String) : NodeInfo :=
  match probe host port with
  | NodeProbeResult.failure =>
      { role := role, host := host, port := port, health := "Down/Error",
        keys := Val.str "n/a", clients := Val.str "n/a", memory := "n/a" }
  | NodeProbeResult.success dbsize clients mem ping =>
      { role := role, host := host, port := port,
        health := if ping then "Healthy" else "Unhealthy",
        keys := Val.int dbsize,
        clients := match clients with
          | some n => Val.int n
          | none => Val.str "n/a",
        memory := mem.getD "n/a" }

/-- The row `save_health_data` binds for one node info: `keys` and
`clients` become SQL `NULL` when the in-memory value is the string `n/a`;
`memory` is bound as the string value unchanged. -/
def healthRowOf (ts cluster : String) (master : String × Nat)
    (i : NodeInfo) : HealthRow :=
  { timestamp := ts, cluster_name := cluster, role := i.role,
    host := i.host, port := i.port, health := i.health,
    keys := if i.keys = Val.str "n/a" then none else some i.keys,
    clients := if i.clients = Val.str "n/a" then none else some i.clients,
    memory := some i.memory,
    master_host := master.1, master_port := master.2 }

/-- `save_health_data`: every row's `INSERT` is attempted because each one
sits in its own inner `try/except: pass`; the commit then persists exactly
the rows whose execution did not raise. -/
def save_health_data (fails : HealthRow → Bool) (ts cluster : String)
    (master : String × Nat) (infos : List NodeInfo) : SaveOutcome HealthRow :=
  let rows := infos.map (healthRowOf ts cluster master)
  { attempted := rows, committed := rows.filter (fun r => ¬ fails r) }

/-- The row `save_sentinel_data` binds for one Sentinel info; note the last
column `total_clusters_monitored` is bound from `info['masters_monitored']`
again. -/
def sentinelRowOf (ts : String) (i : SentinelInfo) : SentinelRow :=
  { timestamp := ts, host := i.host, port := i.port,
    masters_monitored := i.masters_monitored, is_tilt := i.is_tilt,
    running_scripts := i.running_scripts,
    total_clusters_monitored := i.masters_monitored }

/-- The insert loop of `save_sentinel_data`: rows are executed in order with
no inner `try`, so the first raising insert aborts the loop; returns the
attempted rows and whether the loop reached its end. -/
def execLoopSentinel (fails : SentinelRow → Bool) :
    List SentinelRow → List SentinelRow × Bool
  | [] => ([], true)
  | r :: rest =>
      if fails r then ([r], false)
      else
        let p := execLoopSentinel fails rest
        (r :: p.1, p.2)

/-- `save_sentinel_data`: execute all row inserts in one loop (no per-row
`try`); a raising insert escapes to the outer handler so `conn.commit()`
never runs and nothing is persisted; when every insert succeeds the commit
persists the whole batch. -/
def save_sentinel_data (fails : SentinelRow → Bool) (ts : String)
    (infos : List SentinelInfo) : SaveOutcome SentinelRow :=
  let rows := infos.map (sentinelRowOf ts)
  let p := execLoopSentinel fails rows
  { attempted := p.1, committed := if p.2 then rows else [] }

/-- The per-cluster aggregate `live_monitor_view` builds for one master:
the display variables (`master_status`, `slave_count`, `keys_count`,
`total_memory`), the probed node infos, and what `save_health_data`
persisted for this cluster. -/
structure ClusterReport where
  clusterName : String
  masterNode : String × Nat
  masterStatus : String
  slaveCount : Nat
  keysCount : Val
  totalMemory : String
  nodeInfos : List NodeInfo
  savedRows : SaveOutcome HealthRow
deriving DecidableEq, Repr

/-- The body of the master loop of `live_monitor_view` for one entry of the
`sentinel_masters()` mapping.  A record whose `ip` or `port` is falsy is
skipped entirely (`none`).  Otherwise: a raising `sentinel_slaves` call
yields status `Discovery Error` with zero nodes; a successful one probes
the master followed by every replica, each probe isolated in its own `try`;
in both cases `save_health_data` is called for the cluster. -/
def processMaster (w : World) (name : String) (md : MasterData) :
    Option ClusterReport :=
  if truthyStr md.ip ∧ truthyNat md.port then
    let mip := md.ip.getD ""
    let mport := md.port.getD 0
    let masterNode := (mip, mport)
    match w.slaves name with
    | Except.error _ =>
        some { clusterName := name, masterNode := masterNode,
               masterStatus := "Discovery Error", slaveCount := 0,
               keysCount := Val.int 0, totalMemory := "N/A",
               nodeInfos := [],
               savedRows :=
                 save_health_data w.healthInsertFails w.now name masterNode [] }
    | Except.ok slavesData =>
        let allNodes : List (Option String × Option Nat × String) :=
          (some mip, some mport, "Master") ::
            slavesData.map (fun s => (s.1, s.2, "Slave"))
        let nodeInfos :=
          allNodes.map (fun n => probeNode w.nodeProbe n.1 n.2.1 n.2.2)
        let masterStatus :=
          (probeNode w.nodeProbe (some mip) (some mport) "Master").health
        let keysCount :=
          match w.nodeProbe (some mip) (some mport) with
          | NodeProbeResult.success dbsize _ _ _ => Val.int dbsize
          | NodeProbeResult.failure => Val.int 0
        let totalMemory :=
          match w.nodeProbe (some mip) (some mport) with
          | NodeProbeResult.success _ _ mem _ => mem.getD "n/a"
          | NodeProbeResult.failure => "N/A"
        some { clusterName := name, masterNode := masterNode,
               masterStatus := masterStatus,
               slaveCount := slavesData.length,
               keysCount := keysCount, totalMemory := totalMemory,
               nodeInfos := nodeInfos,
               savedRows :=
                 save_health_data w.healthInsertFails w.now name masterNode
                   nodeInfos }
  else none

/-- The Sentinel-probe body of `live_monitor_view`: on success take the
three statistics with default `0` and classify by the ping; on any
exception record status `Error`, zero masters, tilt flag set, zero
scripts. -/
def probeSentinelInfo (probe : Endpoint → SentinelProbeResult)
    (e : Endpoint) : SentinelInfo :=
  match probe e with
  | SentinelProbeResult.failure =>
      { host := e.host, port := e.port, status := "Error",
        masters_monitored := 0, is_tilt := 1, running_scripts := 0 }
  | SentinelProbeResult.success sm tilt scripts ping =>
      { host := e.host, port := e.port,
        status := if ping then "Healthy" else "Unhealthy",
        masters_monitored := sm.getD 0, is_tilt := tilt.getD 0,
        running_scripts := scripts.getD 0 }

/-- The possible outcomes of one `live_monitor_view` cycle: no Sentinel
reachable; `sentinel_masters()` raised; the mapping was empty (early
`return` after the warning); or a completed cycle carrying the per-cluster
reports, the probed Sentinel infos, and the sentinel-batch save outcome. -/
inductive ViewResult where
  | fatalNoSentinel
  | fatalMastersError
  | abortedNoMasters
  | completed (reports : List ClusterReport)
      (sentinelInfos : List SentinelInfo)
      (sentinelSave : SaveOutcome SentinelRow)
deriving DecidableEq, Repr

/-- `live_monitor_view`: locate a Sentinel (fatal if none), query
`sentinel_masters()` (fatal if it raises, early return if the mapping is
empty), process every master in mapping order, then probe every configured
Sentinel and save the Sentinel batch when the info list is non-empty. -/
def live_monitor_view (sentinels : List Endpoint) (w : World) : ViewResult :=
  match get_sentinel_connection sentinels w.conn with
  | none => ViewResult.fatalNoSentinel
  | some _ =>
      match w.masters with
      | Except.error _ => ViewResult.fatalMastersError
      | Except.ok ms =>
          if ms.isEmpty then ViewResult.abortedNoMasters
          else
            let reports := ms.filterMap (fun m => processMaster w m.1 m.2)
            let sentinelInfos :=
              sentinels.map (probeSentinelInfo w.sentinelProbe)
            let save :=
              if sentinelInfos.isEmpty then
                ({ attempted := [], committed := [] } : SaveOutcome SentinelRow)
              else save_sentinel_data w.sentinelInsertFails w.now sentinelInfos
            ViewResult.completed reports sentinelInfos save

/-- Cluster reports of a cycle (empty for the fatal and aborted outcomes). -/
def reportsOf : ViewResult → List ClusterReport
  | ViewResult.completed rs _ _ => rs
  | _ => []

/-- Probed Sentinel infos of a cycle (empty when the cycle did not reach the
Sentinel phase). -/
def sentinelInfosOf : ViewResult → List SentinelInfo
  | ViewResult.completed _ si _ => si
  | _ => []

/-- The sentinel-batch save outcome of a cycle (nothing attempted when the
cycle did not reach the Sentinel phase). -/
def sentinelSaveOf : ViewResult → SaveOutcome SentinelRow
  | ViewResult.completed _ _ sv => sv
  | _ => { attempted := [], committed := [] }

/-- `PAGE_SIZE` in `display_history_view`. -/
def PAGE_SIZE : Nat := 5000

/-- The ordering behind `ORDER BY timestamp DESC`: `a` comes before `b`
when `b`'s timestamp is at most `a`'s. -/
def tsDesc (a b : HealthRow) : Prop := b.timestamp ≤ a.timestamp

instance : DecidableRel tsDesc :=
  fun a b => inferInstanceAs (Decidable (b.timestamp ≤ a.timestamp))

instance : IsTotal HealthRow tsDesc :=
  ⟨fun a b => le_total b.timestamp a.timestamp⟩

instance : IsTrans HealthRow tsDesc :=
  ⟨fun _ _ _ hab hbc => le_trans hbc hab⟩

/-- `get_redis_history_data`: the full `health_snapshots` table ordered by
timestamp descending. -/
def get_redis_history_data (db : List HealthRow) : List HealthRow :=
  List.insertionSort tsDesc db

/-- The cluster-name filter of `display_history_view`: identity when the
selection is `All` (`none`), otherwise keep exactly the rows whose
`cluster_name` equals the selection. -/
def filterByCluster (sel : Option String) (df : List HealthRow) :
    List HealthRow :=
  match sel with
  | none => df
  | some c => df.filter (fun r => r.cluster_name = c)

/-- The filtered, ordered history `display_history_view` paginates over. -/
def filteredHistory (db : List HealthRow) (sel : Option String) :
    List HealthRow :=
  filterByCluster sel (get_redis_history_data db)

/-- What the Redis-node tab of `display_history_view` computes for one
render: the filtered record count, the page count
(`math.ceil(total / PAGE_SIZE)`), and the displayed page slice. -/
structure HistoryPage where
  total_records : Nat
  total_pages : Nat
  page_rows : List HealthRow
deriving DecidableEq, Repr

/-- The Redis-node tab of `display_history_view` for a 1-based selected
page: filter first, count the filtered rows, then slice
`iloc[(page-1)*PAGE_SIZE : (page-1)*PAGE_SIZE + PAGE_SIZE]`. -/
def display_history (db : List HealthRow) (sel : Option String)
    (selected_page : Nat) : HistoryPage :=
  let history_df := filteredHistory db sel
  let total_records := history_df.length
  let start_index := (selected_page - 1) * PAGE_SIZE
  { total_records := total_records,
    total_pages := (total_records + PAGE_SIZE - 1) / PAGE_SIZE,
    page_rows := (history_df.drop start_index).take PAGE_SIZE }

/-! ### Concrete fixtures used by counterexamples and witnesses -/

/-- A configured Sentinel endpoint. -/
def sentinelA : Endpoint := { host := "s1", port := 26379 }

/-- A world in which the Sentinel is reachable and `sentinel_masters()`
succeeds with an empty mapping. -/
def worldEmptyMasters : World :=
  { conn := fun _ => ConnOutcome.pingTrue,
    masters := Except.ok [],
    slaves := fun _ => Except.ok [],
    nodeProbe := fun _ _ => NodeProbeResult.failure,
    sentinelProbe := fun _ => SentinelProbeResult.failure,
    healthInsertFails := fun _ => false,
    sentinelInsertFails := fun _ => false,
    now := "2026-01-01 00:00:00" }

/-- A world in which no Sentinel candidate accepts a connection. -/
def worldAllConnFail : World :=
  { worldEmptyMasters with conn := fun _ => ConnOutcome.raised }

/-- Two Sentinel infos for batch-save experiments. -/
def sentinelInfoA : SentinelInfo :=
  { host := "a", port := 1, status := "Error", masters_monitored := 0,
    is_tilt := 1, running_scripts := 0 }

/-- See `sentinelInfoA`. -/
def sentinelInfoB : SentinelInfo :=
  { host := "b", port := 2, status := "Healthy", masters_monitored := 3,
    is_tilt := 0, running_scripts := 0 }

/-- An insert oracle that raises exactly on rows for host `a`. -/
def failsHostA : SentinelRow → Bool := fun r => r.host = "a"

/-- A node-probe oracle for which every connect/query attempt raises. -/
def failingNodeProbe : Option String → Option Nat → NodeProbeResult :=
  fun _ _ => NodeProbeResult.failure

/-! ### Shared lemmas -/

/-- `get_redis_history_data` is sorted by timestamp descending. -/
theorem sorted_get_redis_history_data (db : List HealthRow) :
    List.Sorted tsDesc (get_redis_history_data db) :=
  List.sorted_insertionSort tsDesc db

/-- The filtered history is still sorted by timestamp descending. -/
theorem sorted_filteredHistory (db : List HealthRow) (sel : Option String) :
    List.Sorted tsDesc (filteredHistory db sel) := by
  cases sel with
  | none => exact sorted_get_redis_history_data db
  | some c =>
      exact (sorted_get_redis_history_data db).sublist
        (List.filter_sublist (get_redis_history_data db))

/-- When a Sentinel is reachable and the masters query succeeds with a
non-empty mapping, `live_monitor_view` completes the cycle: reports from
`processMaster` over the mapping, Sentinel infos from `probeSentinelInfo`
over the configured endpoints, and a sentinel-batch save. -/
theorem live_monitor_view_eq_completed (sentinels : List Endpoint) (w : World)
    (ms : List (String × MasterData))
    (hconn : get_sentinel_connection sentinels w.conn ≠ none)
    (hms : w.masters = Except.ok ms) (hne : ms ≠ []) :
    live_monitor_view sentinels w =
      ViewResult.completed (ms.filterMap (fun m => processMaster w m.1 m.2))
        (sentinels.map (probeSentinelInfo w.sentinelProbe))
        (if (sentinels.map (probeSentinelInfo w.sentinelProbe)).isEmpty then
          { attempted := [], committed := [] }
         else
          save_sentinel_data w.sentinelInsertFails w.now
            (sentinels.map (probeSentinelInfo w.sentinelProbe))) := by
  unfold live_monitor_view
  cases h : get_sentinel_connection sentinels w.conn with
  | none => exact absurd h hconn
  | some e =>
      rw [hms]
      simp [List.isEmpty_iff, hne]

/-! ### Claims -/

/-- Claim C1 (counterexample): with a reachable Sentinel and a masters query that
succeeds with an empty mapping, the cycle does NOT proceed as a cycle with
zero clusters: it returns early after the warning, probes no configured
Sentinel and attempts no SentinelSnapshot batch — contradicting the claim
that it "still probes every configured Sentinel" and "saves a
SentinelSnapshot batch". -/
theorem C1_counterexample :
    get_sentinel_connection [sentinelA] worldEmptyMasters.conn =
      some sentinelA ∧
    worldEmptyMasters.masters = Except.ok [] ∧
    live_monitor_view [sentinelA] worldEmptyMasters =
      ViewResult.abortedNoMasters ∧
    sentinelInfosOf (live_monitor_view [sentinelA] worldEmptyMasters) = [] ∧
    (sentinelSaveOf (live_monitor_view [sentinelA] worldEmptyMasters)).attempted
      = [] := by
  refine ⟨rfl, rfl, ?_, ?_, ?_⟩ <;> rfl

/-- Claim C1 (amended): if the initial masters query succeeds but returns an empty
mapping while a Sentinel is reachable, the cycle aborts early with the
"not monitoring any masters" warning: no cluster report is produced, no
configured Sentinel is probed and no SentinelSnapshot batch is saved; so
both an error of the masters query and an empty-but-successful result abort
the cycle. -/
theorem C1_empty_masters_aborts (sentinels : List Endpoint) (w : World)
    (hconn : get_sentinel_connection sentinels w.conn ≠ none)
    (hms : w.masters = Except.ok []) :
    live_monitor_view sentinels w = ViewResult.abortedNoMasters ∧
    reportsOf (live_monitor_view sentinels w) = [] ∧
    sentinelInfosOf (live_monitor_view sentinels w) = [] ∧
    (sentinelSaveOf (live_monitor_view sentinels w)).attempted = [] := by
  have hview : live_monitor_view sentinels w = ViewResult.abortedNoMasters := by
    unfold live_monitor_view
    cases h : get_sentinel_connection sentinels w.conn with
    | none => exact absurd h hconn
    | some e => rw [hms]; rfl
  exact ⟨hview, by rw [hview]; rfl, by rw [hview]; rfl, by rw [hview]; rfl⟩

/-- Claim C1 (witness for the amended theorem) at the concrete empty-mapping
world. -/
theorem C1_witness :
    live_monitor_view [sentinelA] worldEmptyMasters =
      ViewResult.abortedNoMasters :=
  (C1_empty_masters_aborts [sentinelA] worldEmptyMasters
    (by decide) rfl).1

/-- Claim C2 (counterexample): in `save_sentinel_data`, a failing insert of the
first row of a two-row batch prevents attempting the second row (and the
batch is not committed) — contradicting the claim that a failure inserting
one row does not prevent attempting the remaining rows. -/
theorem C2_counterexample :
    failsHostA (sentinelRowOf "t" sentinelInfoA) = true ∧
    (save_sentinel_data failsHostA "t" [sentinelInfoA, sentinelInfoB]).attempted
      = [sentinelRowOf "t" sentinelInfoA] ∧
    sentinelRowOf "t" sentinelInfoB ∉
      (save_sentinel_data failsHostA "t" [sentinelInfoA, sentinelInfoB]).attempted ∧
    (save_sentinel_data failsHostA "t" [sentinelInfoA, sentinelInfoB]).committed
      = [] := by
  refine ⟨rfl, rfl, ?_, rfl⟩
  decide

/-- Claim C2 (amended): `save_sentinel_data` does not isolate row failures, unlike
`save_health_data`: when the insert of the first row of a batch raises, the
remaining rows are never attempted and nothing is committed, whereas
`save_health_data` attempts every row of its batch regardless of individual
failures. -/
theorem C2_first_failure_stops_batch (fails : SentinelRow → Bool)
    (ts : String) (i : SentinelInfo) (rest : List SentinelInfo)
    (h : fails (sentinelRowOf ts i) = true) :
    save_sentinel_data fails ts (i :: rest) =
      { attempted := [sentinelRowOf ts i], committed := [] } ∧
    ∀ (failsH : HealthRow → Bool) (cluster : String) (master : String × Nat)
      (infos : List NodeInfo),
      (save_health_data failsH ts cluster master infos).attempted =
        infos.map (healthRowOf ts cluster master) := by
  constructor
  · simp [save_sentinel_data, execLoopSentinel, h]
  · intro failsH cluster master infos
    rfl

/-- Claim C2 (witness for the amended theorem) on the concrete two-row batch. -/
theorem C2_witness :
    save_sentinel_data failsHostA "t" [sentinelInfoA, sentinelInfoB] =
      { attempted := [sentinelRowOf "t" sentinelInfoA], committed := [] } :=
  (C2_first_failure_stops_batch failsHostA "t" sentinelInfoA [sentinelInfoB]
    (by decide)).1

/-- Claim C3 (counterexample): for a probe in which every connect/query raises,
the snapshot does get `health = Down/Error`, but the optional fields are not
all absent: the in-memory info carries the sentinel string `n/a` for keys,
clients and memory, and the persisted row stores the literal string `n/a`
in its `memory` column (only `keys` and `clients` become NULL) —
contradicting the claim that `memoryHuman` is absent and never a sentinel
string. -/
theorem C3_counterexample :
    failingNodeProbe (some "h") (some 6379) = NodeProbeResult.failure ∧
    (probeNode failingNodeProbe (some "h") (some 6379) "Master").keys =
      Val.str "n/a" ∧
    (healthRowOf "t" "c" ("h", 6379)
      (probeNode failingNodeProbe (some "h") (some 6379) "Master")).memory =
      some "n/a" ∧
    (healthRowOf "t" "c" ("h", 6379)
      (probeNode failingNodeProbe (some "h") (some 6379) "Master")).memory ≠
      none := by
  refine ⟨rfl, rfl, rfl, ?_⟩
  decide

/-- Claim C3 (amended): for every node probe in which connecting or any query
raises, the probe returns (never raising past its boundary, being a total
function) the `Down/Error` info with the sentinel string `n/a` in its keys,
clients and memory fields, and the store persists a row with
`health = Down/Error`, `keys` and `clients` NULL (absent), and `memory`
equal to the literal string `n/a` (present, not NULL). -/
theorem C3_probe_failure_row
    (probe : Option String → Option Nat → NodeProbeResult)
    (host : Option String) (port : Option Nat) (role ts cluster : String)
    (master : String × Nat)
    (h : probe host port = NodeProbeResult.failure) :
    probeNode probe host port role =
      { role := role, host := host, port := port, health := "Down/Error",
        keys := Val.str "n/a", clients := Val.str "n/a", memory := "n/a" } ∧
    healthRowOf ts cluster master (probeNode probe host port role) =
      { timestamp := ts, cluster_name := cluster, role := role,
        host := host, port := port, health := "Down/Error",
        keys := none, clients := none, memory := some "n/a",
        master_host := master.1, master_port := master.2 } := by
  have hp : probeNode probe host port role =
      { role := role, host := host, port := port, health := "Down/Error",
        keys := Val.str "n/a", clients := Val.str "n/a",
        memory := "n/a" } := by
    unfold probeNode
    rw [h]
  exact ⟨hp, by rw [hp]; rfl⟩

/-- Claim C3 (witness for the amended theorem) at a concrete failing probe. -/
theorem C3_witness :
    healthRowOf "t" "c" ("h", 6379)
      (probeNode failingNodeProbe (some "h") (some 6379) "Master") =
      { timestamp := "t", cluster_name := "c", role := "Master",
        host := some "h", port := some 6379, health := "Down/Error",
        keys := none, clients := none, memory := some "n/a",
        master_host := "h", master_port := 6379 } :=
  (C3_probe_failure_row failingNodeProbe (some "h") (some 6379) "Master"
    "t" "c" ("h", 6379) rfl).2

/-- Sentinel-reported record for the master `cache-01`. -/
def mdA : MasterData := { ip := some "10.0.0.1", port := some 6379 }

/-- Sentinel-reported record for the master `cache-02`. -/
def mdB : MasterData := { ip := some "10.0.0.2", port := some 6380 }

/-- A world with two monitored masters in which replica discovery raises for
`cache-01` only; everything else succeeds. -/
def worldC4 : World :=
  { conn := fun _ => ConnOutcome.pingTrue,
    masters := Except.ok [("cache-01", mdA), ("cache-02", mdB)],
    slaves := fun name =>
      if name = "cache-01" then Except.error ()
      else Except.ok [(some "10.0.0.3", some 6381)],
    nodeProbe := fun _ _ =>
      NodeProbeResult.success 120 (some 3) (some "1.2M") true,
    sentinelProbe := fun _ =>
      SentinelProbeResult.success (some 2) (some 0) (some 0) true,
    healthInsertFails := fun _ => false,
    sentinelInsertFails := fun _ => false,
    now := "2026-01-01 00:00:00" }

/-- Claim C4: a replica-discovery failure is scoped to the one master it occurred
for.  In a completed cycle the report list is exactly `processMaster`
mapped over the whole discovered mapping — every master is still processed
independently — and the master whose `sentinel_slaves` call raised gets
status `Discovery Error` with an empty node list (zero nodes probed, zero
rows persisted for it). -/
theorem C4_discovery_error_scoped (sentinels : List Endpoint) (w : World)
    (ms : List (String × MasterData)) (name : String) (md : MasterData)
    (hconn : get_sentinel_connection sentinels w.conn ≠ none)
    (hms : w.masters = Except.ok ms)
    (hmem : (name, md) ∈ ms)
    (htr : truthyStr md.ip ∧ truthyNat md.port)
    (herr : w.slaves name = Except.error ()) :
    reportsOf (live_monitor_view sentinels w) =
      ms.filterMap (fun m => processMaster w m.1 m.2) ∧
    processMaster w name md =
      some { clusterName := name,
             masterNode := (md.ip.getD "", md.port.getD 0),
             masterStatus := "Discovery Error", slaveCount := 0,
             keysCount := Val.int 0, totalMemory := "N/A",
             nodeInfos := [],
             savedRows := { attempted := [], committed := [] } } := by
  constructor
  · rw [live_monitor_view_eq_completed sentinels w ms hconn hms
      (List.ne_nil_of_mem hmem)]
    rfl
  · unfold processMaster
    rw [if_pos htr, herr]
    rfl

/-- Claim C4 (witness): in `worldC4`, replica discovery fails for `cache-01` only;
its report shows `Discovery Error` with no nodes while the report list is
still the full per-master map. -/
theorem C4_witness :
    reportsOf (live_monitor_view [sentinelA] worldC4) =
      [("cache-01", mdA), ("cache-02", mdB)].filterMap
        (fun m => processMaster worldC4 m.1 m.2) ∧
    processMaster worldC4 "cache-01" mdA =
      some { clusterName := "cache-01", masterNode := ("10.0.0.1", 6379),
             masterStatus := "Discovery Error", slaveCount := 0,
             keysCount := Val.int 0, totalMemory := "N/A", nodeInfos := [],
             savedRows := { attempted := [], committed := [] } } :=
  C4_discovery_error_scoped [sentinelA] worldC4
    [("cache-01", mdA), ("cache-02", mdB)] "cache-01" mdA
    (by decide) rfl (by decide) (by decide) rfl

/-- Claim C5: `get_sentinel_connection` returns exactly the first configured
candidate whose connect-plus-ping succeeds (`List.find?` over the candidate
list in its given order), and when every candidate fails the whole cycle is
fatal with no cluster reports and no Sentinel infos. -/
theorem C5_locator_first_success (sentinels : List Endpoint) (w : World) :
    get_sentinel_connection sentinels w.conn =
      sentinels.find? (fun e => w.conn e == ConnOutcome.pingTrue) ∧
    (get_sentinel_connection sentinels w.conn = none →
      live_monitor_view sentinels w = ViewResult.fatalNoSentinel ∧
      reportsOf (live_monitor_view sentinels w) = [] ∧
      sentinelInfosOf (live_monitor_view sentinels w) = []) := by
  constructor
  · induction sentinels with
    | nil => rfl
    | cons e rest ih =>
        by_cases h : w.conn e = ConnOutcome.pingTrue
        · simp [get_sentinel_connection, h]
        · simp [get_sentinel_connection, h, ih]
  · intro h
    have hview : live_monitor_view sentinels w =
        ViewResult.fatalNoSentinel := by
      unfold live_monitor_view
      rw [h]
    exact ⟨hview, by rw [hview]; rfl, by rw [hview]; rfl⟩

/-- Claim C5 (witness): with one configured Sentinel whose connection raises, the
cycle is fatal. -/
theorem C5_witness :
    live_monitor_view [sentinelA] worldAllConnFail =
      ViewResult.fatalNoSentinel :=
  ((C5_locator_first_success [sentinelA] worldAllConnFail).2 (by decide)).1

/-- Claim C6: for every configured Sentinel endpoint whose probe raises, the
resulting Sentinel info has status `Error`, zero monitored masters, the
tilt flag set (`is_tilt = 1`, the integer encoding of true in the schema)
and zero running scripts. -/
theorem C6_sentinel_probe_failure (probe : Endpoint → SentinelProbeResult)
    (e : Endpoint) (h : probe e = SentinelProbeResult.failure) :
    probeSentinelInfo probe e =
      { host := e.host, port := e.port, status := "Error",
        masters_monitored := 0, is_tilt := 1, running_scripts := 0 } := by
  unfold probeSentinelInfo
  rw [h]

/-- Claim C6 (witness) at a concrete always-failing Sentinel probe. -/
theorem C6_witness :
    probeSentinelInfo worldEmptyMasters.sentinelProbe sentinelA =
      { host := "s1", port := 26379, status := "Error",
        masters_monitored := 0, is_tilt := 1, running_scripts := 0 } :=
  C6_sentinel_probe_failure worldEmptyMasters.sentinelProbe sentinelA rfl

/-- Claim C7: node-history pages are built from the timestamp-descending history;
the exact-match cluster filter is applied before the total-record count and
before the page slice, so the displayed total is the filtered count, every
row of the displayed page has the selected cluster name, and the page keeps
the timestamp-descending order. -/
theorem C7_filter_before_pagination (db : List HealthRow) (c : String)
    (p : Nat) :
    (display_history db (some c) p).total_records =
      ((get_redis_history_data db).filter
        (fun r => r.cluster_name = c)).length ∧
    (∀ r ∈ (display_history db (some c) p).page_rows, r.cluster_name = c) ∧
    List.Sorted tsDesc (display_history db (some c) p).page_rows := by
  have hpage : (display_history db (some c) p).page_rows =
      ((filteredHistory db (some c)).drop ((p - 1) * PAGE_SIZE)).take
        PAGE_SIZE := rfl
  have hsub : (display_history db (some c) p).page_rows.Sublist
      (filteredHistory db (some c)) := by
    rw [hpage]
    exact (List.take_sublist _ _).trans (List.drop_sublist _ _)
  refine ⟨rfl, ?_, ?_⟩
  · intro r hr
    have hmemf : r ∈ (get_redis_history_data db).filter
        (fun r => r.cluster_name = c) := hsub.subset hr
    exact of_decide_eq_true (List.mem_filter.mp hmemf).2
  · exact (sorted_filteredHistory db (some c)).sublist hsub

/-- A sample persisted node row with cluster name `A`. -/
def rowX : HealthRow :=
  { timestamp := "2026-01-02 00:00:00", cluster_name := "A",
    role := "Master", host := some "h1", port := some 6379,
    health := "Healthy", keys := some (Val.int 1),
    clients := some (Val.int 1), memory := some "1M",
    master_host := "h1", master_port := 6379 }

/-- Claim C7 (witness): on a concrete one-row table filtered by cluster `A`, the
total equals the filtered count and the row delivered on the page has
cluster name `A`. -/
theorem C7_witness :
    (display_history [rowX] (some "A") 1).total_records =
      ((get_redis_history_data [rowX]).filter
        (fun r => r.cluster_name = "A")).length ∧
    rowX.cluster_name = "A" :=
  ⟨(C7_filter_before_pagination [rowX] "A" 1).1,
   (C7_filter_before_pagination [rowX] "A" 1).2.1 rowX (by decide)⟩

/-- Claim C8: for a filtered history of exactly 7000 rows, the page of size 5000
at 1-based page 1 and the page at page 2 partition the history: their
concatenation is the whole filtered history (no gap, no positional
overlap), with lengths 5000 and 2000. -/
theorem C8_pagination_partition (db : List HealthRow) (sel : Option String)
    (h : (filteredHistory db sel).length = 7000) :
    (display_history db sel 1).page_rows ++
      (display_history db sel 2).page_rows = filteredHistory db sel ∧
    (display_history db sel 1).page_rows.length = 5000 ∧
    (display_history db sel 2).page_rows.length = 2000 := by
  have h1 : (display_history db sel 1).page_rows =
      (filteredHistory db sel).take 5000 := by
    show ((filteredHistory db sel).drop ((1 - 1) * PAGE_SIZE)).take PAGE_SIZE
      = _
    simp [PAGE_SIZE]
  have hdlen : ((filteredHistory db sel).drop 5000).length = 2000 := by
    rw [List.length_drop, h]
  have h2 : (display_history db sel 2).page_rows =
      (filteredHistory db sel).drop 5000 := by
    show ((filteredHistory db sel).drop ((2 - 1) * PAGE_SIZE)).take PAGE_SIZE
      = _
    have he : (2 - 1) * PAGE_SIZE = 5000 := by norm_num [PAGE_SIZE]
    rw [he]
    exact List.take_of_length_le (by rw [hdlen]; norm_num [PAGE_SIZE])
  refine ⟨?_, ?_, ?_⟩
  · rw [h1, h2, List.take_append_drop]
  · rw [h1, List.length_take, h]
    norm_num
  · rw [h2, hdlen]

/-- Claim C8 (witness) on a concrete unfiltered 7000-row history. -/
theorem C8_witness :
    (display_history (List.replicate 7000 rowX) none 1).page_rows ++
      (display_history (List.replicate 7000 rowX) none 2).page_rows =
      filteredHistory (List.replicate 7000 rowX) none :=
  (C8_pagination_partition (List.replicate 7000 rowX) none
    (by
      simp only [filteredHistory, filterByCluster, get_redis_history_data]
      rw [List.length_insertionSort, List.length_replicate])).1

/-- Claim C9: every row committed to the `sentinel_snapshots` table carries a
`total_clusters_monitored` value equal to its `masters_monitored` value,
because `save_sentinel_data` binds both columns from
`info['masters_monitored']`. -/
theorem C9_total_equals_masters (fails : SentinelRow → Bool) (ts : String)
    (infos : List SentinelInfo) :
    ((save_sentinel_data fails ts infos).committed.all
      (fun r => r.total_clusters_monitored == r.masters_monitored)) =
      true := by
  have hc : (save_sentinel_data fails ts infos).committed =
      if (execLoopSentinel fails (infos.map (sentinelRowOf ts))).2 then
        infos.map (sentinelRowOf ts)
      else [] := rfl
  rw [hc]
  split
  · rw [List.all_eq_true]
    intro r hr
    obtain ⟨i, hi, rfl⟩ := List.mem_map.mp hr
    simp [sentinelRowOf]
  · rfl

/-- Sentinel-reported record with a falsy (zero) port. -/
def mdBroken : MasterData := { ip := some "10.0.0.9", port := some 0 }

/-- A world with one master record carrying a falsy port and one healthy
master. -/
def worldC10 : World :=
  { worldC4 with
    masters := Except.ok [("broken", mdBroken), ("cache-02", mdB)] }

/-- Claim C10: a discovered master whose Sentinel-reported record has a falsy ip
or port is skipped entirely — `processMaster` yields no report for it, so
no node is probed and no row is persisted for it — while the cycle still
produces the per-master reports for the rest of the mapping and still
probes every configured Sentinel. -/
theorem C10_skip_nontruthy_master (sentinels : List Endpoint) (w : World)
    (ms : List (String × MasterData)) (name : String) (md : MasterData)
    (hconn : get_sentinel_connection sentinels w.conn ≠ none)
    (hms : w.masters = Except.ok ms)
    (hmem : (name, md) ∈ ms)
    (hfalsy : ¬ (truthyStr md.ip ∧ truthyNat md.port)) :
    processMaster w name md = none ∧
    reportsOf (live_monitor_view sentinels w) =
      ms.filterMap (fun m => processMaster w m.1 m.2) ∧
    sentinelInfosOf (live_monitor_view sentinels w) =
      sentinels.map (probeSentinelInfo w.sentinelProbe) := by
  have hnone : processMaster w name md = none := by
    unfold processMaster
    rw [if_neg hfalsy]
  have hview := live_monitor_view_eq_completed sentinels w ms hconn hms
    (List.ne_nil_of_mem hmem)
  exact ⟨hnone, by rw [hview]; rfl, by rw [hview]; rfl⟩

/-- Claim C10 (witness): in `worldC10` the zero-port master yields no report while
the Sentinel phase still probes the configured Sentinel. -/
theorem C10_witness :
    processMaster worldC10 "broken" mdBroken = none ∧
    sentinelInfosOf (live_monitor_view [sentinelA] worldC10) =
      [sentinelA].map (probeSentinelInfo worldC10.sentinelProbe) :=
  ⟨(C10_skip_nontruthy_master [sentinelA] worldC10
      [("broken", mdBroken), ("cache-02", mdB)] "broken" mdBroken
      (by decide) rfl (by decide) (by decide)).1,
   (C10_skip_nontruthy_master [sentinelA] worldC10
      [("broken", mdBroken), ("cache-02", mdB)] "broken" mdBroken
      (by decide) rfl (by decide) (by decide)).2.2⟩

end Drishyata
